import Mathlib

/-!
Verification development for the computer-use agent core
(src/computer_use_agent.py).  The Python source is shallowly embedded:

* Python dictionaries of the shapes the program actually builds are modelled
  by association lists over a value type `PyPrim` / `PyVal` (the program only
  nests dictionaries one level deep: a function-call dictionary holds flat
  `args` / `safety_decision` dictionaries, and result dictionaries hold a flat
  `position` dictionary).  A Python dict literal or key assignment updates an
  existing key in place and otherwise appends (`setD`, `mkD`); duplicate keys
  in a literal therefore collapse with the last value winning, exactly as in
  Python.
* Machine integers are `Int`.  `int(a / b)` on integer operands is embedded as
  `Int.tdiv a b` (truncation toward zero): for the operand ranges the program
  produces, CPython float division followed by `int` truncation agrees with
  exact truncated division.
* The browser-automation backend (Playwright) and the reasoning service are
  external collaborators; they are modelled as oracles.  Every backend call
  the executor makes is recorded in an operation trace, and each call either
  succeeds or raises (`Except String`), which the executor converts to
  outcomes exactly as the Python `try`/`except` blocks do.
* Real-time values (timestamps, elapsed time) and the page URL mirror fields
  are not modelled; no claim depends on them.
-/

/-- A non-nested Python value as used by the agent: strings, ints, booleans
and `None`.  CPython booleans are ints in arithmetic contexts; `asIntE`
below reflects that. -/
inductive PyPrim where
  | str (s : String)
  | int (n : Int)
  | bool (b : Bool)
  | pnone
deriving DecidableEq

/-- A flat Python dictionary (string keys, non-nested values). -/
abbrev FlatDict := List (String × PyPrim)

/-- A Python value of the shapes the program stores inside its top-level
dictionaries: either a primitive or a flat dictionary. -/
inductive PyVal where
  | prim (p : PyPrim)
  | dict (d : FlatDict)
deriving DecidableEq

/-- A top-level Python dictionary (function-call dicts, result dicts). -/
abbrev PyDict := List (String × PyVal)

/-- Embedding of Python `d.get(k)` / `k in d`: first binding for the key. -/
def lookupD {α : Type} : List (String × α) → String → Option α
  | [], _ => none
  | (k2, v2) :: rest, k => if k2 = k then some v2 else lookupD rest k

/-- Embedding of Python `d[k] = v`: update the existing binding in place,
otherwise append a new one. -/
def setD {α : Type} : List (String × α) → String → α → List (String × α)
  | [], k, v => [(k, v)]
  | (k2, v2) :: rest, k, v =>
      if k2 = k then (k2, v) :: rest else (k2, v2) :: setD rest k v

/-- Embedding of a Python dict literal: successive insertions into an empty
dictionary, so a duplicated key keeps its first position and the last value. -/
def mkD {α : Type} (l : List (String × α)) : List (String × α) :=
  l.foldl (fun d kv => setD d kv.1 kv.2) []

/-- CPython truthiness for the modelled values (`if not url:` in the source):
`None`, `""`, `0`, `False` are falsy. -/
def pyTruthy : PyPrim → Bool
  | .str s => s ≠ ""
  | .int n => n ≠ 0
  | .bool b => b
  | .pnone => false

/-- Truthiness of an optional lookup result; a missing key behaves like
`None` (Python `d.get(k)` with no default). -/
def pyTruthyO : Option PyPrim → Bool
  | none => false
  | some v => pyTruthy v

/-- ASCII lowercase of one character, the fragment of `str.lower` exercised
by the modelled inputs. -/
def lcChar (c : Char) : Char :=
  if 65 ≤ c.toNat ∧ c.toNat ≤ 90 then Char.ofNat (c.toNat + 32) else c

/-- Embedding of Python `s.lower()` on ASCII strings. -/
def lcStr (s : String) : String := ⟨s.data.map lcChar⟩

/-- Helper for substring search over character lists. -/
def containsSubAux (n : List Char) : List Char → Bool
  | [] => false
  | c :: rest => List.isPrefixOf n (c :: rest) || containsSubAux n rest

/-- Embedding of Python `n in h` on strings (substring containment) for
non-empty patterns. -/
def strContainsSub (h n : String) : Bool := containsSubAux n.data h.data

/-- Python `repr` of a primitive, as produced inside `str(args)`. -/
def reprPrim : PyPrim → String
  | .str s => "\x27" ++ s ++ "\x27"
  | .int n => toString n
  | .bool b => if b then "True" else "False"
  | .pnone => "None"

/-- Comma-joined `repr` entries of a flat dictionary. -/
def reprFlatEntries : FlatDict → String
  | [] => ""
  | [(k, v)] => "\x27" ++ k ++ "\x27: " ++ reprPrim v
  | (k, v) :: rest =>
      "\x27" ++ k ++ "\x27: " ++ reprPrim v ++ ", " ++ reprFlatEntries rest

/-- Python `str` (= `repr`) of a flat dictionary. -/
def reprFlat (d : FlatDict) : String := "\x7b" ++ reprFlatEntries d ++ "\x7d"

/-- Python `str(args)` for a stored value (`check_safety_decision` serializes
the argument mapping this way). -/
def reprVal : PyVal → String
  | .prim (.str s) => "\x27" ++ s ++ "\x27"
  | .prim p => reprPrim p
  | .dict d => reprFlat d

/-- Python `f"...{v}..."` interpolation (`str(v)`) of an optional value; a
missing key prints as `None`. -/
def pyOptToStr : Option PyVal → String
  | none => "None"
  | some (.prim (.str s)) => s
  | some v => reprVal v

/-- Embedding of the `AgentConfig` dataclass with its source defaults.
`max_turns` is a natural number: the source iterates `range(max_turns)`. -/
structure AgentConfig where
  model_name : String := "gemini-2.5-computer-use-preview-10-2025"
  screen_width : Int := 1440
  screen_height : Int := 900
  max_turns : Nat := 20
  headless : Bool := false
  op_timeout : Int := 30000
  safety_strict : Bool := true
  api_key : Option String := none
  base_url : Option String := none

/-- Embedding of `ComputerUseAgent.denormalize_coordinates`:
`int(x * screen_width / 1000)` and `int(y * screen_height / 1000)`, i.e.
truncated division of the exact products. -/
def denormalize_coordinates (cfg : AgentConfig) (x y : Int) : Int × Int :=
  (Int.tdiv (x * cfg.screen_width) 1000, Int.tdiv (y * cfg.screen_height) 1000)

/-- The `high_risk_patterns` list from `ComputerUseAgent.__init__`. -/
def high_risk_patterns : List String :=
  ["password", "credit card", "bank", "financial", "money",
   "delete", "remove", "install", "download", "file"]

/-- The name / argument heuristics of `check_safety_decision` (its second and
third checks, reached when no explicit risk metadata decides first).  A
non-string `name` value would raise at `.lower()` in Python and is outside
the modelled inputs (the loop always passes a string name). -/
def safety_name_args_check (function_call : PyDict) : Bool × PyPrim :=
  let function_name :=
    match lookupD function_call "name" with
    | some (.prim (.str s)) => s
    | _ => ""
  if high_risk_patterns.any (fun p => strContainsSub (lcStr function_name) p) then
    (true, .str ("Action \x27" ++ function_name ++ "\x27 involves high-risk operations"))
  else
    let args := (lookupD function_call "args").getD (.dict [])
    let args_str := lcStr (reprVal args)
    if high_risk_patterns.any (fun p => strContainsSub args_str p) then
      (true, .str "Action involves sensitive data or operations")
    else
      (false, .str "")

/-- Embedding of `ComputerUseAgent.check_safety_decision`.  Decision order as
in the source: explicit `safety_decision` metadata of type
`require_confirmation` wins, then the name heuristic, then the serialized
arguments heuristic, else no confirmation.  A non-dictionary value under
`safety_decision` would raise `AttributeError` in Python; such inputs are
outside the modelled space (the loop builds dictionaries holding only `name`
and `args`, and the metadata the reasoning service emits is a mapping). -/
def check_safety_decision (function_call : PyDict) : Bool × PyPrim :=
  match lookupD function_call "safety_decision" with
  | some (.dict sd) =>
      if lookupD sd "type" = some (.str "require_confirmation") then
        (true, (lookupD sd "explanation").getD (.str "Action requires confirmation"))
      else
        safety_name_args_check function_call
  | _ => safety_name_args_check function_call

/-- One browser-automation operation that the executor can request from the
Playwright backend (§6 external interface).  Values the source forwards
verbatim from the argument dictionary are carried as `PyPrim`. -/
inductive BrowserOp where
  | goto (url : PyPrim)
  | waitForLoadState
  | clickSelector (x y : Int)
  | mouseClick (x y : Int)
  | keyPress (keys : PyPrim)
  | typeText (text : PyPrim)
  | scrollBy (dx dy : Int)
  | sleep (seconds : Nat)
  | goBack
  | goForward
deriving DecidableEq

/-- The browser backend as an oracle: every requested operation either
succeeds or raises an exception message; `page_url` / `page_title` are the
values the page properties yield when read. -/
structure Backend where
  run : BrowserOp → Except String Unit
  page_url : String
  page_title : Except String String

/-- Executor computation: threads the trace of backend operations issued so
far and either returns a value or raises an exception message.  The trace
survives a raise, so that what was invoked before a failure is observable. -/
def ExecM (α : Type) : Type := List BrowserOp → List BrowserOp × Except String α

instance : Monad ExecM where
  pure a := fun t => (t, Except.ok a)
  bind m f := fun t =>
    match m t with
    | (t2, Except.ok a) => f a t2
    | (t2, Except.error e) => (t2, Except.error e)

/-- Issue one backend operation: record it in the trace and propagate the
backend verdict. -/
def doOp (b : Backend) (o : BrowserOp) : ExecM Unit :=
  fun t => (t ++ [o], b.run o)

/-- Embedding of `raise` inside the executor. -/
def raiseE {α : Type} (msg : String) : ExecM α :=
  fun t => (t, Except.error msg)

/-- Lift an oracle verdict (e.g. a page-property read) into the executor. -/
def liftE {α : Type} (e : Except String α) : ExecM α :=
  fun t => (t, e)

/-- Embedding of a `try`/`except` block inside the executor. -/
def tryCatchE {α : Type} (m : ExecM α) (h : String → ExecM α) : ExecM α :=
  fun t =>
    match m t with
    | (t2, Except.ok a) => (t2, Except.ok a)
    | (t2, Except.error e) => h e t2

/-- Coerce an argument value looked up with an integer default into the
integer the source then computes with.  A missing key takes the `get`
default; a boolean is a CPython int; a string or `None` operand raises a
`TypeError` at the subsequent arithmetic, which the embedding raises here. -/
def asIntE (v : Option PyPrim) (dflt : Int) : Except String Int :=
  match v with
  | none => Except.ok dflt
  | some (.int n) => Except.ok n
  | some (.bool b) => Except.ok (if b then 1 else 0)
  | some _ => Except.error "TypeError: unsupported operand type"

/-- The `navigate` branch of `execute_function_call`. -/
def navigateBranch (b : Backend) (args : FlatDict) : ExecM PyDict := do
  let url := lookupD args "url"
  if pyTruthyO url = false then
    raiseE "Navigate requires \x27url\x27 argument"
  else
    doOp b (.goto (url.getD .pnone))
    doOp b .waitForLoadState
    let title ← liftE b.page_title
    pure (mkD [("status", .prim (.str "success")),
               ("url", .prim (.str b.page_url)),
               ("title", .prim (.str title))])

/-- The `click_at` branch of `execute_function_call`.  The position payload
is built from the dict literal of the source, which binds the key `"x"`
twice (`{"x": x, "x": y}`); under Python literal semantics the second
binding overwrites the first. -/
def clickAtBranch (b : Backend) (cfg : AgentConfig) (args : FlatDict) : ExecM PyDict := do
  let x ← liftE (asIntE (lookupD args "x") 0)
  let y ← liftE (asIntE (lookupD args "y") 0)
  let p := denormalize_coordinates cfg x y
  doOp b (.clickSelector p.1 p.2)
  pure (mkD [("status", .prim (.str "success")),
             ("position", .dict (mkD [("x", .int p.1), ("x", .int p.2)]))])

/-- The `type_text_at` branch of `execute_function_call`: focus the element
at the point (falling back to a raw pointer click), optionally select-all,
type, optionally press Enter.  Both option flags default to `True`. -/
def typeTextAtBranch (b : Backend) (cfg : AgentConfig) (args : FlatDict) : ExecM PyDict := do
  let x ← liftE (asIntE (lookupD args "x") 0)
  let y ← liftE (asIntE (lookupD args "y") 0)
  let p := denormalize_coordinates cfg x y
  let text := (lookupD args "text").getD (.str "")
  let clear_before := (lookupD args "clear_before_typing").getD (.bool true)
  let press_enter := (lookupD args "press_enter").getD (.bool true)
  tryCatchE (doOp b (.clickSelector p.1 p.2)) (fun _ => doOp b (.mouseClick p.1 p.2))
  if pyTruthy clear_before then
    doOp b (.keyPress (.str "Control+a"))
  doOp b (.typeText text)
  if pyTruthy press_enter then
    doOp b (.keyPress (.str "Enter"))
  pure (mkD [("status", .prim (.str "success")),
             ("text", .prim text),
             ("position", .dict (mkD [("x", .int p.1), ("y", .int p.2)]))])

/-- The `scroll_document` branch: page-level scroll via keyboard paging. -/
def scrollDocumentBranch (b : Backend) (args : FlatDict) : ExecM PyDict := do
  let direction := (lookupD args "direction").getD (.str "down")
  if direction = .str "down" then
    doOp b (.keyPress (.str "PageDown"))
  else if direction = .str "up" then
    doOp b (.keyPress (.str "PageUp"))
  else if direction = .str "left" then
    doOp b (.keyPress (.str "Control+PageUp"))
  else if direction = .str "right" then
    doOp b (.keyPress (.str "Control+PageDown"))
  else
    pure ()
  pure (mkD [("status", .prim (.str "success")),
             ("direction", .prim direction)])

/-- The `scroll_at` branch: scroll the viewport by `int(magnitude / 10)` in
the requested axis and sign. -/
def scrollAtBranch (b : Backend) (cfg : AgentConfig) (args : FlatDict) : ExecM PyDict := do
  let x ← liftE (asIntE (lookupD args "x") 0)
  let y ← liftE (asIntE (lookupD args "y") 0)
  let p := denormalize_coordinates cfg x y
  let direction := (lookupD args "direction").getD (.str "down")
  let magnitude ← liftE (asIntE (lookupD args "magnitude") 800)
  let scroll_amount := Int.tdiv magnitude 10
  if direction = .str "down" then
    doOp b (.scrollBy 0 scroll_amount)
  else if direction = .str "up" then
    doOp b (.scrollBy 0 (-scroll_amount))
  else if direction = .str "left" then
    doOp b (.scrollBy (-scroll_amount) 0)
  else if direction = .str "right" then
    doOp b (.scrollBy scroll_amount 0)
  else
    pure ()
  pure (mkD [("status", .prim (.str "success")),
             ("position", .dict (mkD [("x", .int p.1), ("y", .int p.2)])),
             ("direction", .prim direction)])

/-- The `wait_5_seconds` branch: suspend five seconds, report the waited
duration. -/
def waitBranch (b : Backend) : ExecM PyDict := do
  doOp b (.sleep 5)
  pure (mkD [("status", .prim (.str "success")), ("waited", .prim (.int 5))])

/-- The `go_back` branch. -/
def goBackBranch (b : Backend) : ExecM PyDict := do
  doOp b .goBack
  doOp b .waitForLoadState
  pure (mkD [("status", .prim (.str "success")), ("url", .prim (.str b.page_url))])

/-- The `go_forward` branch. -/
def goForwardBranch (b : Backend) : ExecM PyDict := do
  doOp b .goForward
  doOp b .waitForLoadState
  pure (mkD [("status", .prim (.str "success")), ("url", .prim (.str b.page_url))])

/-- The `search` branch: navigate to the fixed search-engine URL. -/
def searchBranch (b : Backend) : ExecM PyDict := do
  doOp b (.goto (.str "https://www.google.com"))
  doOp b .waitForLoadState
  pure (mkD [("status", .prim (.str "success")), ("url", .prim (.str b.page_url))])

/-- The `key_combination` branch: send the key combination (default `""`)
to the focused element. -/
def keyCombinationBranch (b : Backend) (args : FlatDict) : ExecM PyDict := do
  let keys := (lookupD args "keys").getD (.str "")
  doOp b (.keyPress keys)
  pure (mkD [("status", .prim (.str "success")), ("keys", .prim keys)])

/-- The dispatch chain of `execute_function_call` (the body of its `try`
block): compare the `name` value against each known intent name in source
order, falling through to the unknown-function error dictionary.  A
non-dictionary `args` value is outside the modelled inputs (the loop always
passes a dictionary). -/
def executeBody (b : Backend) (cfg : AgentConfig) (function_call : PyDict) : ExecM PyDict :=
  let nameO := lookupD function_call "name"
  let args : FlatDict :=
    match lookupD function_call "args" with
    | some (.dict d) => d
    | _ => []
  if nameO = some (.prim (.str "navigate")) then navigateBranch b args
  else if nameO = some (.prim (.str "click_at")) then clickAtBranch b cfg args
  else if nameO = some (.prim (.str "type_text_at")) then typeTextAtBranch b cfg args
  else if nameO = some (.prim (.str "scroll_document")) then scrollDocumentBranch b args
  else if nameO = some (.prim (.str "scroll_at")) then scrollAtBranch b cfg args
  else if nameO = some (.prim (.str "wait_5_seconds")) then waitBranch b
  else if nameO = some (.prim (.str "go_back")) then goBackBranch b
  else if nameO = some (.prim (.str "go_forward")) then goForwardBranch b
  else if nameO = some (.prim (.str "search")) then searchBranch b
  else if nameO = some (.prim (.str "key_combination")) then keyCombinationBranch b args
  else
    pure (mkD [("status", .prim (.str "error")),
               ("message", .prim (.str ("Unknown function: " ++ pyOptToStr nameO)))])

/-- Embedding of `ComputerUseAgent.execute_function_call`: run the dispatch
body and convert any raised exception into a `status = error` outcome
dictionary carrying the message, as the enclosing `except` clause does.
Returns the trace of backend operations issued together with the outcome. -/
def execute_function_call (b : Backend) (cfg : AgentConfig) (function_call : PyDict) :
    List BrowserOp × PyDict :=
  match executeBody b cfg function_call [] with
  | (t, Except.ok d) => (t, d)
  | (t, Except.error e) =>
      (t, mkD [("status", PyVal.prim (.str "error")), ("error", PyVal.prim (.str e))])

/-- One function call extracted from a reasoning-service response part:
`function_call.name` and `function_call.args` (defaulted to `{}`). -/
structure FunctionCall where
  name : String
  args : FlatDict
deriving DecidableEq

/-- One reasoning-service response, as the loop interprets it: either the
call raised (the outer `except` path of a turn), or it returned a candidate
whose parts carry the listed function calls and a text.  A candidate with no
function-call parts is a final answer, which the loop detects via
`fcs.isEmpty`. -/
inductive ModelTurn where
  | fault (msg : String)
  | reply (fcs : List FunctionCall) (text : String)

/-- The environment of one run: the immutable configuration and the three
external collaborators — the reasoning service (a response per turn index),
the user-confirmation capability, and the browser backend. -/
structure Env where
  cfg : AgentConfig := {}
  backend : Backend
  model : Nat → ModelTurn
  confirm : PyDict → PyPrim → Bool

/-- One entry of the `function_results` list the loop accumulates per turn:
the function name, the result dictionary, and the status tag the loop reads
back out of the result (`execution_result.get('status', 'unknown')`, or the
literal `'cancelled'` for a declined confirmation). -/
structure FunctionResult where
  function_name : String
  result : PyDict
  status : PyVal
deriving DecidableEq

/-- Instrumented outcome of dispatching one intent: the recorded
`FunctionResult`, whether `execute_function_call` was invoked at all, and
the backend operations it issued. -/
structure CallOutcome where
  fr : FunctionResult
  executorInvoked : Bool
  ops : List BrowserOp
deriving DecidableEq

/-- Embedding of the per-intent body of `run_agent_loop`: build the
function dictionary, consult the safety gate when confirmation is enabled,
block on the confirmation capability when the gate requires it, and either
record a cancelled outcome (declined) or mark the arguments acknowledged
(confirmed) and call the executor. -/
def processCall (env : Env) (safety_confirmation : Bool) (fc : FunctionCall) : CallOutcome :=
  let function_dict : PyDict := mkD [("name", .prim (.str fc.name)), ("args", .dict fc.args)]
  let runExec : PyDict → CallOutcome := fun fd =>
    let r := execute_function_call env.backend env.cfg fd
    { fr := { function_name := fc.name, result := r.2,
              status := (lookupD r.2 "status").getD (.prim (.str "unknown")) },
      executorInvoked := true, ops := r.1 }
  if safety_confirmation then
    let rc := check_safety_decision function_dict
    if rc.1 then
      if env.confirm function_dict rc.2 then
        runExec (setD function_dict "args"
          (.dict (setD fc.args "safety_acknowledged" (.str "true"))))
      else
        let fdc := setD (setD function_dict "status" (.prim (.str "cancelled")))
          "reason" (.prim rc.2)
        { fr := { function_name := fc.name, result := fdc,
                  status := .prim (.str "cancelled") },
          executorInvoked := false, ops := [] }
    else runExec function_dict
  else runExec function_dict

/-- One entry of `results["turns"]`: the 1-based turn number, the names of
the dispatched calls, their results, and — on the exception path only — the
recorded fault message. -/
structure TurnRecord where
  turn : Nat
  function_calls : List String
  results : List FunctionResult
  error : Option String
deriving DecidableEq

/-- The `results` dictionary `run_agent_loop` returns, restricted to the
keys the loop writes that are not real-time or page-state mirrors: the task
text, the per-turn records, the success flag, and the final textual answer
(present only when the model finished without function calls).  The source
writes no other failure-description key. -/
structure RunResults where
  task : String
  turns : List TurnRecord
  success : Bool
  final_response : Option String
deriving DecidableEq

/-- The predicate of the all-failed short-circuit check:
`result['status'] in ['error', 'cancelled']`. -/
def turnFailed (fr : FunctionResult) : Bool :=
  fr.status = PyVal.prim (.str "error") || fr.status = PyVal.prim (.str "cancelled")

/-- The turn iteration of `run_agent_loop` (`for turn in range(max_turns)`),
with `fuel` the remaining iterations and `turnIdx` the 0-based index of the
current one.  Returns the result record together with two instrumentation
outputs: the number of reasoning-service calls issued and the concatenated
backend trace.  Each entered iteration issues exactly one service call; the
`break` statements of the source are returns without recursion. -/
def loopAux (env : Env) (safety_confirmation : Bool) :
    Nat → Nat → RunResults → Nat → List BrowserOp → RunResults × Nat × List BrowserOp
  | 0, _, acc, calls, trace => (acc, calls, trace)
  | fuel + 1, turnIdx, acc, calls, trace =>
    match env.model turnIdx with
    | .fault e =>
        ({ acc with turns := acc.turns ++ [⟨turnIdx + 1, [], [], some e⟩] },
         calls + 1, trace)
    | .reply fcs text =>
        if fcs.isEmpty then
          ({ acc with success := true, final_response := some text }, calls + 1, trace)
        else
          let outs := fcs.map (processCall env safety_confirmation)
          let frs := outs.map (fun o => o.fr)
          let ops := (outs.map (fun o => o.ops)).flatten
          let acc2 := { acc with turns :=
            acc.turns ++ [⟨turnIdx + 1, fcs.map (fun f => f.name), frs, none⟩] }
          if frs.all turnFailed then
            (acc2, calls + 1, trace ++ ops)
          else
            loopAux env safety_confirmation fuel (turnIdx + 1) acc2 (calls + 1) (trace ++ ops)

/-- Embedding of `ComputerUseAgent.run_agent_loop`: initialize the result
record (success `False`, no turns) and run the bounded turn loop. -/
def run_agent_loop (env : Env) (user_prompt : String) (safety_confirmation : Bool) :
    RunResults × Nat × List BrowserOp :=
  loopAux env safety_confirmation env.cfg.max_turns 0
    { task := user_prompt, turns := [], success := false, final_response := none } 0 []

/-- A backend on which every operation succeeds (used to instantiate
universally quantified theorems at concrete inputs). -/
def okBackend : Backend :=
  { run := fun _ => Except.ok (), page_url := "about:blank", page_title := Except.ok "blank" }

/-- A backend on which every operation raises. -/
def errBackend : Backend :=
  { run := fun _ => Except.error "backend failure",
    page_url := "about:blank", page_title := Except.error "backend failure" }

/-- Looking up a key right after setting it yields the value just set. -/
theorem lookupD_setD_self {α : Type} (d : List (String × α)) (k : String) (v : α) :
    lookupD (setD d k v) k = some v := by
  induction d with
  | nil => simp [setD, lookupD]
  | cons kv rest ih =>
    obtain ⟨k2, v2⟩ := kv
    by_cases h : k2 = k
    · simp [setD, lookupD, h]
    · simp [setD, lookupD, h, ih]

/-- Each entered loop iteration issues exactly one reasoning-service call,
so the call count grows by at most the remaining fuel. -/
theorem loopAux_calls_le (env : Env) (sc : Bool) :
    ∀ fuel turnIdx acc calls trace,
      (loopAux env sc fuel turnIdx acc calls trace).2.1 ≤ calls + fuel := by
  intro fuel
  induction fuel with
  | zero => intro i acc c tr; simp [loopAux]
  | succ n ih =>
    intro i acc c tr
    simp only [loopAux]
    rcases env.model i with e | ⟨fcs, text⟩
    · simp only []
      omega
    · by_cases he : fcs.isEmpty
      · simp only [he, if_true]
        omega
      · simp only [he, Bool.false_eq_true, if_false]
        by_cases hall :
            ((fcs.map (processCall env sc)).map (fun o => o.fr)).all turnFailed
        · simp only [hall, if_true]
          omega
        · simp only [hall, Bool.false_eq_true, if_false]
          exact le_trans (ih _ _ _ _) (by omega)

/-- C1: for every configuration with positive maximum turn count, one
invocation of `run_agent_loop` is a total computation returning a
`RunResults` record, and it issues at most `max_turns` reasoning-service
calls: the `for turn in range(max_turns)` loop enters at most `max_turns`
iterations and each entered iteration makes exactly one service call. -/
theorem run_agent_loop_call_bound (env : Env) (prompt : String) (sc : Bool)
    (_hN : 0 < env.cfg.max_turns) :
    (∃ r : RunResults × Nat × List BrowserOp, run_agent_loop env prompt sc = r) ∧
    (run_agent_loop env prompt sc).2.1 ≤ env.cfg.max_turns := by
  refine ⟨⟨_, rfl⟩, ?_⟩
  have h := loopAux_calls_le env sc env.cfg.max_turns 0
    { task := prompt, turns := [], success := false, final_response := none } 0 []
  simpa [run_agent_loop] using h

/-- A run environment whose model immediately returns a final answer. -/
def envAnswer : Env :=
  { backend := okBackend, model := fun _ => ModelTurn.reply [] "done",
    confirm := fun _ _ => true }

theorem run_agent_loop_call_bound_witness :
    0 < envAnswer.cfg.max_turns ∧
    ((∃ r : RunResults × Nat × List BrowserOp, run_agent_loop envAnswer "t" true = r) ∧
     (run_agent_loop envAnswer "t" true).2.1 ≤ envAnswer.cfg.max_turns) :=
  ⟨by decide, run_agent_loop_call_bound envAnswer "t" true (by decide)⟩

/-- C2: whenever the loop is at any iteration whose reply carries at least
one function call and every dispatched outcome of that turn has status
`error` or `cancelled`, the loop returns right after that turn — it makes
exactly the one reasoning-service call of that turn and no further one —
and the returned record keeps `success = false`. -/
theorem all_failed_short_circuit (env : Env) (sc : Bool) (fuel turnIdx calls : Nat)
    (acc : RunResults) (trace : List BrowserOp) (fcs : List FunctionCall) (text : String)
    (hm : env.model turnIdx = ModelTurn.reply fcs text) (hne : fcs ≠ [])
    (hall : ∀ fc ∈ fcs, turnFailed (processCall env sc fc).fr = true)
    (hs : acc.success = false) :
    ∃ acc2 ops, loopAux env sc (fuel + 1) turnIdx acc calls trace
        = (acc2, calls + 1, trace ++ ops) ∧ acc2.success = false := by
  have he : fcs.isEmpty = false := by
    cases fcs with
    | nil => exact absurd rfl hne
    | cons a l => rfl
  have hallb : ((fcs.map (processCall env sc)).map (fun o => o.fr)).all turnFailed = true := by
    rw [List.all_eq_true]
    intro fr hfr
    simp only [List.map_map, List.mem_map, Function.comp] at hfr
    obtain ⟨fc, hfc, hfr2⟩ := hfr
    rw [← hfr2]
    exact hall fc hfc
  have key : loopAux env sc (fuel + 1) turnIdx acc calls trace
      = ({ acc with turns := acc.turns ++ [⟨turnIdx + 1, fcs.map (fun f => f.name),
            (fcs.map (processCall env sc)).map (fun o => o.fr), none⟩] },
         calls + 1,
         trace ++ ((fcs.map (processCall env sc)).map (fun o => o.ops)).flatten) := by
    simp only [loopAux, hm, he, Bool.false_eq_true, if_false, hallb, if_true]
  exact ⟨_, _, key, hs⟩

/-- An environment whose backend raises on every operation, so every
dispatched intent produces an `error` outcome. -/
def envFail : Env :=
  { backend := errBackend,
    model := fun _ => ModelTurn.reply [⟨"click_at", [("x", PyPrim.int 1)]⟩] "",
    confirm := fun _ _ => true }

/-- The result record as `run_agent_loop` initializes it. -/
def initResults : RunResults :=
  { task := "t", turns := [], success := false, final_response := none }

theorem all_failed_short_circuit_witness :
    ∃ acc2 ops, loopAux envFail true (4 + 1) 0 initResults 0 []
        = (acc2, 0 + 1, [] ++ ops) ∧ acc2.success = false :=
  all_failed_short_circuit envFail true 4 0 0 initResults []
    [⟨"click_at", [("x", PyPrim.int 1)]⟩] "" rfl (by decide) (by decide) rfl

/-- C3: when safety confirmation is enabled, the gate requires confirmation
for an intent, and the confirmation capability declines, the recorded
outcome has status `cancelled`, `execute_function_call` is never invoked
for that intent (no backend operation is issued), and the gate reason is
recorded under the `reason` key of the outcome payload.  The dispatch loop
maps over the whole batch (`processCall` per intent), so the remaining
intents of the turn are processed unaffected. -/
theorem declined_confirmation_cancels (env : Env) (fc : FunctionCall) (r : PyPrim)
    (hreq : check_safety_decision
        (mkD [("name", PyVal.prim (.str fc.name)), ("args", PyVal.dict fc.args)]) = (true, r))
    (hdec : env.confirm
        (mkD [("name", PyVal.prim (.str fc.name)), ("args", PyVal.dict fc.args)]) r = false) :
    (processCall env true fc).fr.status = PyVal.prim (.str "cancelled") ∧
    (processCall env true fc).executorInvoked = false ∧
    (processCall env true fc).ops = [] ∧
    lookupD (processCall env true fc).fr.result "reason" = some (PyVal.prim r) := by
  simp only [processCall, hreq, if_true, hdec, Bool.false_eq_true, if_false]
  exact ⟨trivial, trivial, trivial, lookupD_setD_self _ _ _⟩

/-- An environment whose confirmation capability always declines. -/
def envDecline : Env :=
  { backend := okBackend, model := fun _ => ModelTurn.reply [] "",
    confirm := fun _ _ => false }

theorem declined_confirmation_cancels_witness :
    (check_safety_decision (mkD [("name", PyVal.prim (.str "delete_file")),
        ("args", PyVal.dict [])])
      = (true, PyPrim.str "Action \x27delete_file\x27 involves high-risk operations")) ∧
    (processCall envDecline true ⟨"delete_file", []⟩).fr.status
        = PyVal.prim (.str "cancelled") ∧
    (processCall envDecline true ⟨"delete_file", []⟩).executorInvoked = false ∧
    (processCall envDecline true ⟨"delete_file", []⟩).ops = [] ∧
    lookupD (processCall envDecline true ⟨"delete_file", []⟩).fr.result "reason"
        = some (PyVal.prim
            (PyPrim.str "Action \x27delete_file\x27 involves high-risk operations")) :=
  ⟨by decide,
   declined_confirmation_cancels envDecline ⟨"delete_file", []⟩
     (PyPrim.str "Action \x27delete_file\x27 involves high-risk operations")
     (by decide) rfl⟩

/-- C4: an intent carrying `safety_decision` metadata of type
`require_confirmation` makes `check_safety_decision` return `true` together
with the explanation stored in that metadata, whatever the name and
arguments of the intent are: the metadata check is the first branch, so the
name and argument heuristics are never consulted. -/
theorem gate_metadata_precedence (function_call : PyDict) (sd : FlatDict) (expl : PyPrim)
    (h1 : lookupD function_call "safety_decision" = some (PyVal.dict sd))
    (h2 : lookupD sd "type" = some (PyPrim.str "require_confirmation"))
    (h3 : lookupD sd "explanation" = some expl) :
    check_safety_decision function_call = (true, expl) := by
  simp only [check_safety_decision, h1, h2, if_true, h3, Option.getD_some]

/-- Risk metadata of kind "requires confirmation" with an explanation. -/
def gateSd : FlatDict :=
  [("type", PyPrim.str "require_confirmation"),
   ("explanation", PyPrim.str "dangerous purchase")]

/-- A function-call dictionary with innocuous name and arguments but
explicit risk metadata. -/
def gateFd : PyDict :=
  [("name", PyVal.prim (.str "click_at")), ("args", PyVal.dict []),
   ("safety_decision", PyVal.dict gateSd)]

theorem gate_metadata_precedence_witness :
    (lookupD gateFd "safety_decision" = some (PyVal.dict gateSd) ∧
     lookupD gateSd "type" = some (PyPrim.str "require_confirmation") ∧
     lookupD gateSd "explanation" = some (PyPrim.str "dangerous purchase")) ∧
    check_safety_decision gateFd = (true, PyPrim.str "dangerous purchase") :=
  ⟨⟨by decide, by decide, by decide⟩,
   gate_metadata_precedence gateFd gateSd (PyPrim.str "dangerous purchase")
     (by decide) (by decide) (by decide)⟩

/-- C5 (code bug): executing `click_at` with normalized `x = 500, y = 500`
under the default 1440 by 900 viewport succeeds and the coordinate mapper
produces the pixel position `(720, 450)` — but the success payload does not
record it.  The source builds the position payload as the dict literal
`\x7b"x": x, "x": y\x7d`, binding the key `"x"` twice, so the payload holds
only `\x7b"x": 450\x7d`: the pixel y-value stored under the key `"x"`, the
pixel x-value `720` dropped, and no `"y"` key at all. -/
theorem click_at_position_payload_bug :
    lookupD (execute_function_call okBackend {}
      [("name", PyVal.prim (.str "click_at")),
       ("args", PyVal.dict [("x", PyPrim.int 500), ("y", PyPrim.int 500)])]).2 "status"
      = some (PyVal.prim (.str "success")) ∧
    denormalize_coordinates {} 500 500 = (720, 450) ∧
    lookupD (execute_function_call okBackend {}
      [("name", PyVal.prim (.str "click_at")),
       ("args", PyVal.dict [("x", PyPrim.int 500), ("y", PyPrim.int 500)])]).2 "position"
      = some (PyVal.dict [("x", PyPrim.int 450)]) := by decide

/-- C6: for in-range normalized coordinates and positive viewport
dimensions, the coordinate mapper is a pure total function computing
exactly the mathematical floors `floor(x * width / 1000)` and
`floor(y * height / 1000)`: truncated division coincides with the rational
floor because the products are non-negative. -/
theorem denormalize_coordinates_floor (cfg : AgentConfig) (x y : Int)
    (hx0 : 0 ≤ x) (_hx : x ≤ 999) (hy0 : 0 ≤ y) (_hy : y ≤ 999)
    (hw : 0 < cfg.screen_width) (hh : 0 < cfg.screen_height) :
    denormalize_coordinates cfg x y
      = (⌊((x * cfg.screen_width : Int) : ℚ) / 1000⌋,
         ⌊((y * cfg.screen_height : Int) : ℚ) / 1000⌋) := by
  have h1 : (0 : Int) ≤ x * cfg.screen_width := mul_nonneg hx0 hw.le
  have h2 : (0 : Int) ≤ y * cfg.screen_height := mul_nonneg hy0 hh.le
  have e1 : ((1000 : ℚ)) = ((1000 : ℕ) : ℚ) := by norm_num
  rw [denormalize_coordinates, Prod.mk.injEq, e1,
    Rat.floor_intCast_div_natCast, Rat.floor_intCast_div_natCast,
    Int.tdiv_eq_ediv h1 (by norm_num), Int.tdiv_eq_ediv h2 (by norm_num)]
  norm_num

theorem denormalize_coordinates_floor_witness :
    ((0 : Int) ≤ 500 ∧ (500 : Int) ≤ 999 ∧
     0 < ({} : AgentConfig).screen_width ∧ 0 < ({} : AgentConfig).screen_height) ∧
    denormalize_coordinates {} 500 500
      = (⌊((500 * ({} : AgentConfig).screen_width : Int) : ℚ) / 1000⌋,
         ⌊((500 * ({} : AgentConfig).screen_height : Int) : ℚ) / 1000⌋) :=
  ⟨⟨by decide, by decide, by decide, by decide⟩,
   denormalize_coordinates_floor {} 500 500 (by decide) (by decide) (by decide)
     (by decide) (by decide) (by decide)⟩

/-- C7 counterexample: a `click_at` intent missing both of its required
coordinate arguments does not produce a `status = error` outcome — under a
backend whose click succeeds, the executor defaults the coordinates to 0
and reports success, contradicting the claim that every intent missing a
§4.3-required argument yields `status = error`. -/
theorem missing_args_validated_cex :
    lookupD (execute_function_call okBackend {}
      [("name", PyVal.prim (.str "click_at")), ("args", PyVal.dict [])]).2 "status"
      = some (PyVal.prim (.str "success")) ∧
    lookupD (execute_function_call okBackend {}
      [("name", PyVal.prim (.str "click_at")), ("args", PyVal.dict [])]).2 "status"
      ≠ some (PyVal.prim (.str "error")) := by decide

/-- C7 amended: only `navigate` validates a required argument.  A `navigate`
intent whose arguments lack a `url` raises `ValueError` internally, which
the executor catches and surfaces as a `status = error` outcome with the
validation message and no backend operation — nothing propagates out, so
the turn continues.  `click_at` and `type_text_at` default missing
coordinates to 0 and `key_combination` defaults missing keys to the empty
string: they proceed to the backend and, when it succeeds, report success
instead of a validation error. -/
theorem missing_args_behavior (b : Backend) (cfg : AgentConfig) (args : FlatDict)
    (hurl : lookupD args "url" = none)
    (hclick : b.run (BrowserOp.clickSelector 0 0) = Except.ok ())
    (hkey : b.run (BrowserOp.keyPress (PyPrim.str "")) = Except.ok ())
    (hk1 : b.run (BrowserOp.keyPress (PyPrim.str "Control+a")) = Except.ok ())
    (hty : b.run (BrowserOp.typeText (PyPrim.str "")) = Except.ok ())
    (hk2 : b.run (BrowserOp.keyPress (PyPrim.str "Enter")) = Except.ok ()) :
    (lookupD (execute_function_call b cfg
        [("name", PyVal.prim (.str "navigate")), ("args", PyVal.dict args)]).2 "status"
      = some (PyVal.prim (.str "error")) ∧
     lookupD (execute_function_call b cfg
        [("name", PyVal.prim (.str "navigate")), ("args", PyVal.dict args)]).2 "error"
      = some (PyVal.prim (.str "Navigate requires \x27url\x27 argument")) ∧
     (execute_function_call b cfg
        [("name", PyVal.prim (.str "navigate")), ("args", PyVal.dict args)]).1 = []) ∧
    lookupD (execute_function_call b cfg
        [("name", PyVal.prim (.str "click_at")), ("args", PyVal.dict [])]).2 "status"
      = some (PyVal.prim (.str "success")) ∧
    lookupD (execute_function_call b cfg
        [("name", PyVal.prim (.str "type_text_at")), ("args", PyVal.dict [])]).2 "status"
      = some (PyVal.prim (.str "success")) ∧
    lookupD (execute_function_call b cfg
        [("name", PyVal.prim (.str "key_combination")), ("args", PyVal.dict [])]).2 "status"
      = some (PyVal.prim (.str "success")) := by
  refine ⟨⟨?_, ?_, ?_⟩, ?_, ?_, ?_⟩ <;>
    simp [execute_function_call, executeBody, navigateBranch, clickAtBranch,
      typeTextAtBranch, keyCombinationBranch, asIntE, hurl, hclick, hkey, hk1, hty, hk2,
      denormalize_coordinates, tryCatchE, doOp, liftE, raiseE, pyTruthyO, pyTruthy,
      bind, pure, mkD, setD, lookupD]

theorem missing_args_behavior_witness :
    (lookupD ([] : FlatDict) "url" = none ∧
     okBackend.run (BrowserOp.clickSelector 0 0) = Except.ok ()) ∧
    (lookupD (execute_function_call okBackend {}
        [("name", PyVal.prim (.str "navigate")), ("args", PyVal.dict [])]).2 "status"
      = some (PyVal.prim (.str "error")) ∧
     lookupD (execute_function_call okBackend {}
        [("name", PyVal.prim (.str "navigate")), ("args", PyVal.dict [])]).2 "error"
      = some (PyVal.prim (.str "Navigate requires \x27url\x27 argument")) ∧
     (execute_function_call okBackend {}
        [("name", PyVal.prim (.str "navigate")), ("args", PyVal.dict [])]).1 = []) ∧
    lookupD (execute_function_call okBackend {}
        [("name", PyVal.prim (.str "click_at")), ("args", PyVal.dict [])]).2 "status"
      = some (PyVal.prim (.str "success")) ∧
    lookupD (execute_function_call okBackend {}
        [("name", PyVal.prim (.str "type_text_at")), ("args", PyVal.dict [])]).2 "status"
      = some (PyVal.prim (.str "success")) ∧
    lookupD (execute_function_call okBackend {}
        [("name", PyVal.prim (.str "key_combination")), ("args", PyVal.dict [])]).2 "status"
      = some (PyVal.prim (.str "success")) :=
  ⟨⟨rfl, rfl⟩,
   missing_args_behavior okBackend {} [] rfl rfl rfl rfl rfl rfl⟩

/-- C8 counterexample: the executor has no branch for an intent named
`wait` — that name falls through the whole dispatch chain into the
unknown-function case, so the outcome is `status = error` with an
unknown-function message, no backend operation is issued and nothing
suspends.  The branch the source implements is named `wait_5_seconds`. -/
theorem wait_intent_unrecognized_cex :
    lookupD (execute_function_call okBackend {}
      [("name", PyVal.prim (.str "wait")), ("args", PyVal.dict [])]).2 "status"
      = some (PyVal.prim (.str "error")) ∧
    lookupD (execute_function_call okBackend {}
      [("name", PyVal.prim (.str "wait")), ("args", PyVal.dict [])]).2 "message"
      = some (PyVal.prim (.str "Unknown function: wait")) ∧
    (execute_function_call okBackend {}
      [("name", PyVal.prim (.str "wait")), ("args", PyVal.dict [])]).1 = [] := by decide

/-- C8 amended: the wait intent of the implemented vocabulary is named
`wait_5_seconds`; executing it issues exactly one backend operation — a
5-second suspension — and returns a success outcome whose payload reports
the waited duration of 5 seconds. -/
theorem wait_5_seconds_executes (b : Backend) (cfg : AgentConfig) (args : FlatDict)
    (h : b.run (BrowserOp.sleep 5) = Except.ok ()) :
    execute_function_call b cfg
        [("name", PyVal.prim (.str "wait_5_seconds")), ("args", PyVal.dict args)]
      = ([BrowserOp.sleep 5],
         [("status", PyVal.prim (.str "success")), ("waited", PyVal.prim (.int 5))]) := by
  simp [execute_function_call, executeBody, waitBranch, doOp, h, bind, pure, mkD, setD,
    lookupD]

theorem wait_5_seconds_executes_witness :
    okBackend.run (BrowserOp.sleep 5) = Except.ok () ∧
    execute_function_call okBackend {}
        [("name", PyVal.prim (.str "wait_5_seconds")), ("args", PyVal.dict [])]
      = ([BrowserOp.sleep 5],
         [("status", PyVal.prim (.str "success")), ("waited", PyVal.prim (.int 5))]) :=
  ⟨rfl, wait_5_seconds_executes okBackend {} [] rfl⟩

/-- An environment that always replies with one innocuous successful intent,
under a one-turn budget: the run ends by budget exhaustion. -/
def envTurnBudget : Env :=
  { cfg := { max_turns := 1 }, backend := okBackend,
    model := fun _ =>
      ModelTurn.reply [⟨"click_at", [("x", PyPrim.int 1), ("y", PyPrim.int 2)]⟩] "",
    confirm := fun _ _ => true }

/-- C9 counterexample: a run that exhausts its turn budget (limit 1, the
model always returns an intent, the intent succeeds) terminates with
`success = false`, yet the returned record carries no failure reason
anywhere: there is no final response, and no turn entry holds an error
message.  The source writes no reason key at all on this path — the only
failure text it ever records is a reasoning-service fault message inside a
turn entry. -/
theorem budget_exhausted_no_reason_cex :
    (run_agent_loop envTurnBudget "task" true).1.success = false ∧
    (run_agent_loop envTurnBudget "task" true).1.final_response = none ∧
    ((run_agent_loop envTurnBudget "task" true).1.turns.all
      (fun t => t.error.isNone)) = true ∧
    (run_agent_loop envTurnBudget "task" true).1.turns.length = 1 := by decide

/-- C9 amended: on failure the returned record carries only the success
flag; no top-level human-readable reason field exists.  The one failure
description the loop does record is the message of a reasoning-service
fault, stored inside the failing turn entry of the turns list (here shown
for a fault on the first turn, which also terminates the run). -/
theorem failure_reason_only_in_turn_entry (env : Env) (prompt : String) (sc : Bool)
    (msg : String) (hN : 0 < env.cfg.max_turns)
    (hm : env.model 0 = ModelTurn.fault msg) :
    (run_agent_loop env prompt sc).1.success = false ∧
    (run_agent_loop env prompt sc).1.final_response = none ∧
    (run_agent_loop env prompt sc).1.turns = [⟨1, [], [], some msg⟩] := by
  obtain ⟨n, hn⟩ : ∃ n, env.cfg.max_turns = n + 1 := ⟨env.cfg.max_turns - 1, by omega⟩
  rw [run_agent_loop, hn]
  simp [loopAux, hm]

/-- An environment whose reasoning service is unreachable. -/
def envFault : Env :=
  { backend := okBackend, model := fun _ => ModelTurn.fault "service unreachable",
    confirm := fun _ _ => true }

theorem failure_reason_only_in_turn_entry_witness :
    (0 < envFault.cfg.max_turns ∧ envFault.model 0 = ModelTurn.fault "service unreachable") ∧
    (run_agent_loop envFault "task" true).1.success = false ∧
    (run_agent_loop envFault "task" true).1.final_response = none ∧
    (run_agent_loop envFault "task" true).1.turns = [⟨1, [], [], some "service unreachable"⟩] :=
  ⟨⟨by decide, rfl⟩,
   failure_reason_only_in_turn_entry envFault "task" true "service unreachable"
     (by decide) rfl⟩

/-- C10: a `type_text_at` intent whose arguments omit both option flags gets
`clear_before_typing = True` and `press_enter = True` by default: after
focusing the target point, the executor issues select-all (`Control+a`),
then types the text, then presses Enter — in that order — and reports a
success payload with the typed text and the mapped position. -/
theorem type_text_at_default_flags (b : Backend) (cfg : AgentConfig) (args : FlatDict)
    (xv yv : Int) (text : String)
    (hx : lookupD args "x" = some (PyPrim.int xv))
    (hy : lookupD args "y" = some (PyPrim.int yv))
    (ht : lookupD args "text" = some (PyPrim.str text))
    (hc : lookupD args "clear_before_typing" = none)
    (hp : lookupD args "press_enter" = none)
    (hclick : b.run (BrowserOp.clickSelector (denormalize_coordinates cfg xv yv).1
        (denormalize_coordinates cfg xv yv).2) = Except.ok ())
    (hk1 : b.run (BrowserOp.keyPress (PyPrim.str "Control+a")) = Except.ok ())
    (hty : b.run (BrowserOp.typeText (PyPrim.str text)) = Except.ok ())
    (hk2 : b.run (BrowserOp.keyPress (PyPrim.str "Enter")) = Except.ok ()) :
    execute_function_call b cfg
        [("name", PyVal.prim (.str "type_text_at")), ("args", PyVal.dict args)]
      = ([BrowserOp.clickSelector (denormalize_coordinates cfg xv yv).1
            (denormalize_coordinates cfg xv yv).2,
          BrowserOp.keyPress (PyPrim.str "Control+a"),
          BrowserOp.typeText (PyPrim.str text),
          BrowserOp.keyPress (PyPrim.str "Enter")],
         [("status", PyVal.prim (.str "success")),
          ("text", PyVal.prim (PyPrim.str text)),
          ("position", PyVal.dict
            [("x", PyPrim.int (denormalize_coordinates cfg xv yv).1),
             ("y", PyPrim.int (denormalize_coordinates cfg xv yv).2)])]) := by
  simp [execute_function_call, executeBody, typeTextAtBranch, asIntE, hx, hy, ht, hc, hp,
    hclick, hk1, hty, hk2, tryCatchE, doOp, liftE, bind, pure, pyTruthy, mkD, setD, lookupD]

/-- Concrete arguments for a `type_text_at` call that set only the point and
the text. -/
def typeArgs : FlatDict :=
  [("x", PyPrim.int 500), ("y", PyPrim.int 500), ("text", PyPrim.str "hello")]

theorem type_text_at_default_flags_witness :
    (lookupD typeArgs "x" = some (PyPrim.int 500) ∧
     lookupD typeArgs "clear_before_typing" = none ∧
     lookupD typeArgs "press_enter" = none) ∧
    execute_function_call okBackend {}
        [("name", PyVal.prim (.str "type_text_at")), ("args", PyVal.dict typeArgs)]
      = ([BrowserOp.clickSelector (denormalize_coordinates {} 500 500).1
            (denormalize_coordinates {} 500 500).2,
          BrowserOp.keyPress (PyPrim.str "Control+a"),
          BrowserOp.typeText (PyPrim.str "hello"),
          BrowserOp.keyPress (PyPrim.str "Enter")],
         [("status", PyVal.prim (.str "success")),
          ("text", PyVal.prim (PyPrim.str "hello")),
          ("position", PyVal.dict
            [("x", PyPrim.int (denormalize_coordinates {} 500 500).1),
             ("y", PyPrim.int (denormalize_coordinates {} 500 500).2)])]) :=
  ⟨⟨by decide, by decide, by decide⟩,
   type_text_at_default_flags okBackend {} typeArgs 500 500 "hello"
     (by decide) (by decide) (by decide) (by decide) (by decide) rfl rfl rfl rfl⟩
